import Mathlib

/-!
Shallow embedding of the retirement projection engine
(src/retirement.py, function compute_projection) over exact rationals.

Python floats become rationals; the DataFrame becomes a list of rows,
one row per retirement year; vectorized masked assignments become a
per-row conditional; integer exponents (which may be negative, since
years_to_retirement may be negative) become zpow.
-/

namespace Retirement

/-- The keyword-parameter set of compute_projection. -/
structure ProjectionInput where
  current_year : ℤ
  current_age : ℤ
  current_savings : ℚ
  retirement_start_year : ℤ
  retirement_years : ℤ
  base_income_need : ℚ
  inflation : ℚ
  cola : ℚ
  investment_return : ℚ
  p1_start_value : ℚ
  p1_start_age : ℤ
  p2_start_value : ℚ
  p2_start_age : ℤ
  ss_start_value : ℚ
  ss_start_age : ℤ

/-- One row of the projection DataFrame: columns Year, Ret_Year_Index, Age,
Target_Income, Pension_1, Pension_2, Social_Security, Total_Fixed_Income,
Shortfall, PV_of_Shortfall. -/
structure ProjectionRow where
  Year : ℤ
  Ret_Year_Index : ℕ
  Age : ℤ
  Target_Income : ℚ
  Pension_1 : ℚ
  Pension_2 : ℚ
  Social_Security : ℚ
  Total_Fixed_Income : ℚ
  Shortfall : ℚ
  PV_of_Shortfall : ℚ

/-- The tuple compute_projection returns: the DataFrame plus the six
scalar metrics. -/
structure ProjectionResult where
  rows : List ProjectionRow
  total_needed_at_retirement : ℚ
  fv_current_savings : ℚ
  remaining_needed : ℚ
  annual_savings_needed : ℚ
  years_to_retirement : ℤ
  retirement_age : ℤ

/-- years_to_retirement = retirement_start_year - current_year
(line 38 of retirement.py; may be zero or negative). -/
def years_to_retirement (p : ProjectionInput) : ℤ :=
  p.retirement_start_year - p.current_year

/-- Number of rows: the length of
list(range(retirement_start_year, retirement_start_year + retirement_years)),
which is retirement_years when positive and 0 otherwise. -/
def numRows (p : ProjectionInput) : ℕ :=
  p.retirement_years.toNat

/-- Column Year at row index i: retirement_start_year + i. -/
def rowYear (p : ProjectionInput) (i : ℕ) : ℤ :=
  p.retirement_start_year + i

/-- Column Age at row index i: current_age + (Year - current_year)
(line 45 of retirement.py). -/
def rowAge (p : ProjectionInput) (i : ℕ) : ℤ :=
  p.current_age + (rowYear p i - p.current_year)

/-- Column Target_Income:
base_income_need * (1 + inflation) ** (years_to_retirement + Ret_Year_Index)
(line 48 of retirement.py). The exponent is an integer that may be negative. -/
def targetIncome (p : ProjectionInput) (i : ℕ) : ℚ :=
  p.base_income_need * (1 + p.inflation) ^ (years_to_retirement p + (i : ℤ))

/-- A fixed-income column: initialized to 0.0, and on rows where
Age >= start_age overwritten with start_value * (1 + cola) ** (Age - start_age)
(the masked assignments on lines 51-63 of retirement.py). -/
def streamValue (start_value : ℚ) (start_age : ℤ) (cola : ℚ) (age : ℤ) : ℚ :=
  if start_age ≤ age then start_value * (1 + cola) ^ (age - start_age) else 0

/-- Column Pension_1. -/
def pension1 (p : ProjectionInput) (i : ℕ) : ℚ :=
  streamValue p.p1_start_value p.p1_start_age p.cola (rowAge p i)

/-- Column Pension_2. -/
def pension2 (p : ProjectionInput) (i : ℕ) : ℚ :=
  streamValue p.p2_start_value p.p2_start_age p.cola (rowAge p i)

/-- Column Social_Security. -/
def socialSecurity (p : ProjectionInput) (i : ℕ) : ℚ :=
  streamValue p.ss_start_value p.ss_start_age p.cola (rowAge p i)

/-- Column Total_Fixed_Income = Pension_1 + Pension_2 + Social_Security
(line 66 of retirement.py). -/
def totalFixedIncome (p : ProjectionInput) (i : ℕ) : ℚ :=
  pension1 p i + pension2 p i + socialSecurity p i

/-- Column Shortfall = (Target_Income - Total_Fixed_Income).clip(lower=0)
(line 67 of retirement.py). -/
def shortfall (p : ProjectionInput) (i : ℕ) : ℚ :=
  max 0 (targetIncome p i - totalFixedIncome p i)

/-- Column PV_of_Shortfall = Shortfall / (1 + investment_return) ** Ret_Year_Index
(line 70 of retirement.py). -/
def pvOfShortfall (p : ProjectionInput) (i : ℕ) : ℚ :=
  shortfall p i / (1 + p.investment_return) ^ i

/-- Row i of the DataFrame, assembled from the columns. -/
def mkRow (p : ProjectionInput) (i : ℕ) : ProjectionRow :=
  ⟨rowYear p i, i, rowAge p i, targetIncome p i, pension1 p i, pension2 p i,
   socialSecurity p i, totalFixedIncome p i, shortfall p i, pvOfShortfall p i⟩

/-- The DataFrame: one row per index 0..numRows-1. -/
def projectionRows (p : ProjectionInput) : List ProjectionRow :=
  (List.range (numRows p)).map (mkRow p)

/-- compute_projection (lines 5-104 of retirement.py): builds the row table,
sums PV_of_Shortfall, then runs the savings calculation with its branches on
years_to_retirement <= 0, remaining_needed == 0 and investment_return == 0. -/
def compute_projection (p : ProjectionInput) : ProjectionResult :=
  let rows := projectionRows p
  let total_needed := (rows.map ProjectionRow.PV_of_Shortfall).sum
  let ytr := years_to_retirement p
  let fv :=
    if ytr ≤ 0 then p.current_savings
    else p.current_savings * (1 + p.investment_return) ^ ytr.toNat
  let remaining := max 0 (total_needed - fv)
  let annual :=
    if ytr ≤ 0 then 0
    else if remaining = 0 then 0
    else if p.investment_return = 0 then remaining / (ytr : ℚ)
    else remaining / (((1 + p.investment_return) ^ ytr.toNat - 1) / p.investment_return)
  ⟨rows, total_needed, fv, remaining, annual, ytr, p.current_age + ytr⟩

/-- The rows component of the result is the row table. -/
theorem compute_projection_rows (p : ProjectionInput) :
    (compute_projection p).rows = projectionRows p := rfl

/-- The row table has numRows rows. -/
theorem rows_length (p : ProjectionInput) :
    (compute_projection p).rows.length = numRows p := by
  simp [compute_projection, projectionRows]

/-- Row i of the result is mkRow p i. -/
theorem rows_get (p : ProjectionInput) (i : ℕ)
    (h : i < (compute_projection p).rows.length) :
    (compute_projection p).rows.get ⟨i, h⟩ = mkRow p i := by
  have hn : i < numRows p := by
    have := rows_length p
    omega
  simp [compute_projection, projectionRows]

/-- Ages on consecutive rows differ by exactly one. -/
theorem rowAge_succ (p : ProjectionInput) (i : ℕ) :
    rowAge p (i + 1) = rowAge p i + 1 := by
  unfold rowAge rowYear
  push_cast
  ring

/-- Before the start age a stream is 0. -/
theorem streamValue_of_lt (v : ℚ) (A : ℤ) (c : ℚ) (a : ℤ) (h : a < A) :
    streamValue v A c a = 0 :=
  if_neg (not_le.mpr h)

/-- From the start age on, a stream is its start value grown by
(1 + cola) ^ (age - start age). -/
theorem streamValue_of_le (v : ℚ) (A : ℤ) (c : ℚ) (a : ℤ) (h : A ≤ a) :
    streamValue v A c a = v * (1 + c) ^ (a - A) :=
  if_pos h

/-- Concrete scenario with two retirement years starting in 2027:
at row 0 the age is 62, so Pension_1 (start age 61) and Social_Security
(start age 62) have started while Pension_2 (start age 70) has not. -/
def inpA : ProjectionInput :=
  ⟨2025, 60, 1000, 2027, 2, 100, 3/100, 3/100, 5/100, 10, 61, 20, 70, 12, 62⟩

/-- Concrete scenario whose retirement starts in the current year, so
years_to_retirement = 0. -/
def inpB : ProjectionInput :=
  ⟨2025, 65, 500, 2025, 1, 100, 3/100, 3/100, 5/100, 10, 61, 20, 70, 12, 62⟩

/-- Concrete scenario with zero investment return, one year to retirement
and no fixed income, so remaining_needed is positive. -/
def inpC : ProjectionInput :=
  ⟨2000, 60, 0, 2001, 1, 100, 0, 0, 0, 0, 100, 0, 100, 0, 100⟩

/-- Concrete scenario with retirement_years = 0. -/
def inpD : ProjectionInput :=
  ⟨2025, 51, 20000, 2039, 0, 64000, 3/100, 3/100, 5/100, 16000, 55, 29400, 65, 9600, 62⟩

/-- Concrete scenario with positive inflation but a zero base income need. -/
def inpE : ProjectionInput :=
  ⟨2025, 60, 0, 2025, 2, 0, 3/100, 0, 0, 0, 100, 0, 100, 0, 100⟩

/-- Claim C1 (counterexample): on a concrete input with retirement_years = 0,
compute_projection does not fail with a validation error: it silently returns
a complete result whose row table is empty. -/
theorem C1_counterexample :
    inpD.retirement_years < 1 ∧ (compute_projection inpD).rows.length = 0 ∧
    (compute_projection inpD).total_needed_at_retirement = 0 := by
  refine ⟨by decide, by decide, ?_⟩
  norm_num [compute_projection, projectionRows, numRows, inpD]

/-- Claim C1 (amended): for every input with retirement_years < 1,
compute_projection performs no validation and returns a result with zero
rows. -/
theorem C1_zero_rows (p : ProjectionInput) (h : p.retirement_years < 1) :
    (compute_projection p).rows.length = 0 := by
  have hz : numRows p = 0 := by
    unfold numRows
    omega
  rw [rows_length, hz]

/-- Witness for C1_zero_rows at a concrete input with retirement_years = 0. -/
theorem C1_zero_rows_witness :
    inpD.retirement_years < 1 ∧ (compute_projection inpD).rows.length = 0 :=
  ⟨by decide, C1_zero_rows inpD (by decide)⟩

/-- Claim C2 (confirmed): for retirement_years at least 1 the result has
exactly retirement_years rows; row i has Year = retirement_start_year + i,
Ret_Year_Index = i and Age = current_age + (Year - current_year). -/
theorem C2_rows (p : ProjectionInput) (h1 : 1 ≤ p.retirement_years) :
    ((compute_projection p).rows.length : ℤ) = p.retirement_years ∧
    ∀ i : ℕ, ∀ h : i < (compute_projection p).rows.length,
      ((compute_projection p).rows.get ⟨i, h⟩).Year = p.retirement_start_year + (i : ℤ) ∧
      ((compute_projection p).rows.get ⟨i, h⟩).Ret_Year_Index = i ∧
      ((compute_projection p).rows.get ⟨i, h⟩).Age =
        p.current_age + (((compute_projection p).rows.get ⟨i, h⟩).Year - p.current_year) := by
  constructor
  · rw [rows_length]
    unfold numRows
    omega
  · intro i h
    rw [rows_get]
    exact ⟨rfl, rfl, rfl⟩

/-- Witness for C2_rows at a concrete input with two retirement years. -/
theorem C2_rows_witness :
    1 ≤ inpA.retirement_years ∧
    (((compute_projection inpA).rows.length : ℤ) = inpA.retirement_years ∧
     ∀ i : ℕ, ∀ h : i < (compute_projection inpA).rows.length,
       ((compute_projection inpA).rows.get ⟨i, h⟩).Year = inpA.retirement_start_year + (i : ℤ) ∧
       ((compute_projection inpA).rows.get ⟨i, h⟩).Ret_Year_Index = i ∧
       ((compute_projection inpA).rows.get ⟨i, h⟩).Age =
         inpA.current_age + (((compute_projection inpA).rows.get ⟨i, h⟩).Year - inpA.current_year)) :=
  ⟨by decide, C2_rows inpA (by decide)⟩

/-- Claim C3 (confirmed): every row's Target_Income is
base_income_need * (1 + inflation) ^ (years_to_retirement + Ret_Year_Index)
with years_to_retirement = retirement_start_year - current_year, so inflation
keeps compounding through the retirement years. -/
theorem C3_target_income (p : ProjectionInput) (i : ℕ)
    (h : i < (compute_projection p).rows.length) :
    ((compute_projection p).rows.get ⟨i, h⟩).Target_Income =
      p.base_income_need *
        (1 + p.inflation) ^ (p.retirement_start_year - p.current_year + (i : ℤ)) := by
  rw [rows_get]
  rfl

/-- Witness for C3_target_income at a concrete input, row 0. -/
theorem C3_target_income_witness :
    0 < (compute_projection inpA).rows.length ∧
    ((compute_projection inpA).rows.get ⟨0, by decide⟩).Target_Income =
      inpA.base_income_need *
        (1 + inpA.inflation) ^ (inpA.retirement_start_year - inpA.current_year + ((0:ℕ) : ℤ)) :=
  ⟨by decide, C3_target_income inpA 0 (by decide)⟩

/-- Claim C4 (confirmed): each of the three fixed-income streams is 0 on rows
whose Age is below its start age and equals
start_value * (1 + cola) ^ (Age - start_age) once Age reaches the start age,
and Total_Fixed_Income is exactly the sum of the three streams. -/
theorem C4_fixed_income (p : ProjectionInput) (i : ℕ)
    (h : i < (compute_projection p).rows.length) :
    (((compute_projection p).rows.get ⟨i, h⟩).Age < p.p1_start_age →
      ((compute_projection p).rows.get ⟨i, h⟩).Pension_1 = 0) ∧
    (p.p1_start_age ≤ ((compute_projection p).rows.get ⟨i, h⟩).Age →
      ((compute_projection p).rows.get ⟨i, h⟩).Pension_1 =
        p.p1_start_value * (1 + p.cola) ^
          (((compute_projection p).rows.get ⟨i, h⟩).Age - p.p1_start_age)) ∧
    (((compute_projection p).rows.get ⟨i, h⟩).Age < p.p2_start_age →
      ((compute_projection p).rows.get ⟨i, h⟩).Pension_2 = 0) ∧
    (p.p2_start_age ≤ ((compute_projection p).rows.get ⟨i, h⟩).Age →
      ((compute_projection p).rows.get ⟨i, h⟩).Pension_2 =
        p.p2_start_value * (1 + p.cola) ^
          (((compute_projection p).rows.get ⟨i, h⟩).Age - p.p2_start_age)) ∧
    (((compute_projection p).rows.get ⟨i, h⟩).Age < p.ss_start_age →
      ((compute_projection p).rows.get ⟨i, h⟩).Social_Security = 0) ∧
    (p.ss_start_age ≤ ((compute_projection p).rows.get ⟨i, h⟩).Age →
      ((compute_projection p).rows.get ⟨i, h⟩).Social_Security =
        p.ss_start_value * (1 + p.cola) ^
          (((compute_projection p).rows.get ⟨i, h⟩).Age - p.ss_start_age)) ∧
    ((compute_projection p).rows.get ⟨i, h⟩).Total_Fixed_Income =
      ((compute_projection p).rows.get ⟨i, h⟩).Pension_1 +
      ((compute_projection p).rows.get ⟨i, h⟩).Pension_2 +
      ((compute_projection p).rows.get ⟨i, h⟩).Social_Security := by
  rw [rows_get]
  exact ⟨fun hl => streamValue_of_lt _ _ _ _ hl,
         fun hg => streamValue_of_le _ _ _ _ hg,
         fun hl => streamValue_of_lt _ _ _ _ hl,
         fun hg => streamValue_of_le _ _ _ _ hg,
         fun hl => streamValue_of_lt _ _ _ _ hl,
         fun hg => streamValue_of_le _ _ _ _ hg,
         rfl⟩

/-- Witness for C4_fixed_income at a concrete input, row 0 (age 62: Pension_1
and Social_Security have started, Pension_2 has not). -/
theorem C4_fixed_income_witness :
    0 < (compute_projection inpA).rows.length ∧
    ((((compute_projection inpA).rows.get ⟨0, by decide⟩).Age < inpA.p1_start_age →
      ((compute_projection inpA).rows.get ⟨0, by decide⟩).Pension_1 = 0) ∧
    (inpA.p1_start_age ≤ ((compute_projection inpA).rows.get ⟨0, by decide⟩).Age →
      ((compute_projection inpA).rows.get ⟨0, by decide⟩).Pension_1 =
        inpA.p1_start_value * (1 + inpA.cola) ^
          (((compute_projection inpA).rows.get ⟨0, by decide⟩).Age - inpA.p1_start_age)) ∧
    (((compute_projection inpA).rows.get ⟨0, by decide⟩).Age < inpA.p2_start_age →
      ((compute_projection inpA).rows.get ⟨0, by decide⟩).Pension_2 = 0) ∧
    (inpA.p2_start_age ≤ ((compute_projection inpA).rows.get ⟨0, by decide⟩).Age →
      ((compute_projection inpA).rows.get ⟨0, by decide⟩).Pension_2 =
        inpA.p2_start_value * (1 + inpA.cola) ^
          (((compute_projection inpA).rows.get ⟨0, by decide⟩).Age - inpA.p2_start_age)) ∧
    (((compute_projection inpA).rows.get ⟨0, by decide⟩).Age < inpA.ss_start_age →
      ((compute_projection inpA).rows.get ⟨0, by decide⟩).Social_Security = 0) ∧
    (inpA.ss_start_age ≤ ((compute_projection inpA).rows.get ⟨0, by decide⟩).Age →
      ((compute_projection inpA).rows.get ⟨0, by decide⟩).Social_Security =
        inpA.ss_start_value * (1 + inpA.cola) ^
          (((compute_projection inpA).rows.get ⟨0, by decide⟩).Age - inpA.ss_start_age)) ∧
    ((compute_projection inpA).rows.get ⟨0, by decide⟩).Total_Fixed_Income =
      ((compute_projection inpA).rows.get ⟨0, by decide⟩).Pension_1 +
      ((compute_projection inpA).rows.get ⟨0, by decide⟩).Pension_2 +
      ((compute_projection inpA).rows.get ⟨0, by decide⟩).Social_Security) :=
  ⟨by decide, C4_fixed_income inpA 0 (by decide)⟩

/-- Claim C5 (confirmed): every row's Shortfall is
max(0, Target_Income - Total_Fixed_Income), hence never negative; the floor is
applied row by row, so no surplus of one year offsets another year. -/
theorem C5_shortfall (p : ProjectionInput) (i : ℕ)
    (h : i < (compute_projection p).rows.length) :
    ((compute_projection p).rows.get ⟨i, h⟩).Shortfall =
      max 0 (((compute_projection p).rows.get ⟨i, h⟩).Target_Income -
             ((compute_projection p).rows.get ⟨i, h⟩).Total_Fixed_Income) ∧
    0 ≤ ((compute_projection p).rows.get ⟨i, h⟩).Shortfall := by
  rw [rows_get]
  exact ⟨rfl, le_max_left 0 _⟩

/-- Witness for C5_shortfall at a concrete input, row 0. -/
theorem C5_shortfall_witness :
    0 < (compute_projection inpA).rows.length ∧
    (((compute_projection inpA).rows.get ⟨0, by decide⟩).Shortfall =
      max 0 (((compute_projection inpA).rows.get ⟨0, by decide⟩).Target_Income -
             ((compute_projection inpA).rows.get ⟨0, by decide⟩).Total_Fixed_Income) ∧
    0 ≤ ((compute_projection inpA).rows.get ⟨0, by decide⟩).Shortfall) :=
  ⟨by decide, C5_shortfall inpA 0 (by decide)⟩

/-- Claim C6 (confirmed): every row's PV_of_Shortfall is its Shortfall
discounted by (1 + investment_return) ^ Ret_Year_Index, so row 0 is
undiscounted, and total_needed_at_retirement is the sum of the
PV_of_Shortfall column. -/
theorem C6_pv (p : ProjectionInput) (i : ℕ)
    (h : i < (compute_projection p).rows.length) :
    ((compute_projection p).rows.get ⟨i, h⟩).PV_of_Shortfall =
      ((compute_projection p).rows.get ⟨i, h⟩).Shortfall /
        (1 + p.investment_return) ^ i ∧
    (i = 0 → ((compute_projection p).rows.get ⟨i, h⟩).PV_of_Shortfall =
      ((compute_projection p).rows.get ⟨i, h⟩).Shortfall) ∧
    (compute_projection p).total_needed_at_retirement =
      ((compute_projection p).rows.map ProjectionRow.PV_of_Shortfall).sum := by
  rw [rows_get]
  refine ⟨rfl, ?_, rfl⟩
  rintro rfl
  show pvOfShortfall p 0 = shortfall p 0
  simp [pvOfShortfall]

/-- Witness for C6_pv at a concrete input, row 0. -/
theorem C6_pv_witness :
    0 < (compute_projection inpA).rows.length ∧
    (((compute_projection inpA).rows.get ⟨0, by decide⟩).PV_of_Shortfall =
      ((compute_projection inpA).rows.get ⟨0, by decide⟩).Shortfall /
        (1 + inpA.investment_return) ^ 0 ∧
    (0 = 0 → ((compute_projection inpA).rows.get ⟨0, by decide⟩).PV_of_Shortfall =
      ((compute_projection inpA).rows.get ⟨0, by decide⟩).Shortfall) ∧
    (compute_projection inpA).total_needed_at_retirement =
      ((compute_projection inpA).rows.map ProjectionRow.PV_of_Shortfall).sum) :=
  ⟨by decide, C6_pv inpA 0 (by decide)⟩

/-- fv_current_savings as the branch on years_to_retirement
(lines 75-80 of retirement.py). -/
theorem fv_def (p : ProjectionInput) :
    (compute_projection p).fv_current_savings =
      if years_to_retirement p ≤ 0 then p.current_savings
      else p.current_savings * (1 + p.investment_return) ^ (years_to_retirement p).toNat :=
  rfl

/-- remaining_needed = max(0, total_needed_at_retirement - fv_current_savings)
(lines 77 and 81 of retirement.py). -/
theorem remaining_def (p : ProjectionInput) :
    (compute_projection p).remaining_needed =
      max 0 ((compute_projection p).total_needed_at_retirement -
             (compute_projection p).fv_current_savings) :=
  rfl

/-- annual_savings_needed as the nested branches of lines 75-92 of
retirement.py. -/
theorem annual_def (p : ProjectionInput) :
    (compute_projection p).annual_savings_needed =
      if years_to_retirement p ≤ 0 then 0
      else if (compute_projection p).remaining_needed = 0 then 0
      else if p.investment_return = 0 then
        (compute_projection p).remaining_needed / (years_to_retirement p : ℚ)
      else
        (compute_projection p).remaining_needed /
          (((1 + p.investment_return) ^ (years_to_retirement p).toNat - 1) /
            p.investment_return) :=
  rfl

/-- Claim C7 (confirmed): with a non-positive horizon the engine returns
annual_savings_needed = 0 and leaves current_savings ungrown; with a positive
horizon it grows current_savings by (1 + investment_return) per year; in both
cases remaining_needed is floored at zero. -/
theorem C7_savings (p : ProjectionInput) :
    ((compute_projection p).years_to_retirement ≤ 0 →
      (compute_projection p).annual_savings_needed = 0 ∧
      (compute_projection p).fv_current_savings = p.current_savings) ∧
    (0 < (compute_projection p).years_to_retirement →
      (compute_projection p).fv_current_savings =
        p.current_savings *
          (1 + p.investment_return) ^ (compute_projection p).years_to_retirement) ∧
    (compute_projection p).remaining_needed =
      max 0 ((compute_projection p).total_needed_at_retirement -
             (compute_projection p).fv_current_savings) := by
  refine ⟨?_, ?_, remaining_def p⟩
  · intro hle
    replace hle : years_to_retirement p ≤ 0 := hle
    rw [annual_def, fv_def, if_pos hle, if_pos hle]
    exact ⟨rfl, rfl⟩
  · intro hpos
    replace hpos : 0 < years_to_retirement p := hpos
    have hz : ((years_to_retirement p).toNat : ℤ) = years_to_retirement p :=
      Int.toNat_of_nonneg hpos.le
    rw [fv_def, if_neg (not_le.mpr hpos)]
    show _ = p.current_savings * (1 + p.investment_return) ^ (years_to_retirement p)
    rw [← hz, zpow_natCast, Int.toNat_natCast]

/-- Witness for C7_savings at a concrete input whose retirement starts in the
current year (years_to_retirement = 0). -/
theorem C7_savings_witness :
    (compute_projection inpB).years_to_retirement ≤ 0 ∧
    (compute_projection inpB).annual_savings_needed = 0 ∧
    (compute_projection inpB).fv_current_savings = inpB.current_savings := by
  refine ⟨by decide, ?_, ?_⟩
  · exact ((C7_savings inpB).1 (by decide)).1
  · exact ((C7_savings inpB).1 (by decide)).2

/-- Claim C8 (confirmed): with a positive horizon N and positive
remaining_needed R, a zero investment_return takes the straight-line branch
R / N (no division by the rate), a nonzero rate takes the annuity-factor
branch, and R = 0 gives 0. -/
theorem C8_annuity (p : ProjectionInput) (hN : 0 < years_to_retirement p) :
    (0 < (compute_projection p).remaining_needed →
      (p.investment_return = 0 →
        (compute_projection p).annual_savings_needed =
          (compute_projection p).remaining_needed / (years_to_retirement p : ℚ)) ∧
      (p.investment_return ≠ 0 →
        (compute_projection p).annual_savings_needed =
          (compute_projection p).remaining_needed /
            (((1 + p.investment_return) ^ (years_to_retirement p) - 1) /
              p.investment_return))) ∧
    ((compute_projection p).remaining_needed = 0 →
      (compute_projection p).annual_savings_needed = 0) := by
  have hz : ((years_to_retirement p).toNat : ℤ) = years_to_retirement p :=
    Int.toNat_of_nonneg hN.le
  constructor
  · intro hR
    constructor
    · intro hr0
      rw [annual_def, if_neg (not_le.mpr hN), if_neg (ne_of_gt hR), if_pos hr0]
    · intro hr
      rw [annual_def, if_neg (not_le.mpr hN), if_neg (ne_of_gt hR), if_neg hr,
        ← hz, zpow_natCast, Int.toNat_natCast]
  · intro hR0
    rw [annual_def, if_neg (not_le.mpr hN), if_pos hR0]

/-- Witness for C8_annuity at a concrete input with zero investment return,
one year to retirement and a positive remaining need. -/
theorem C8_annuity_witness :
    0 < years_to_retirement inpC ∧
    0 < (compute_projection inpC).remaining_needed ∧
    inpC.investment_return = 0 ∧
    (compute_projection inpC).annual_savings_needed =
      (compute_projection inpC).remaining_needed / (years_to_retirement inpC : ℚ) := by
  have hR : 0 < (compute_projection inpC).remaining_needed := by
    rw [remaining_def, fv_def]
    norm_num [compute_projection, projectionRows, numRows, mkRow, pvOfShortfall,
      shortfall, targetIncome, totalFixedIncome, pension1, pension2,
      socialSecurity, streamValue, rowAge, rowYear, years_to_retirement,
      List.range_succ, inpC]
  exact ⟨by decide, hR, rfl, ((C8_annuity inpC (by decide)).1 hR).1 rfl⟩

/-- Claim C9 (counterexample): with positive inflation but a zero base income
need, Target_Income is 0 on every row, so it is not strictly increasing. -/
theorem C9_counterexample :
    0 < inpE.inflation ∧
    ¬ (((compute_projection inpE).rows.get ⟨0, by decide⟩).Target_Income <
       ((compute_projection inpE).rows.get ⟨1, by decide⟩).Target_Income) := by
  constructor
  · norm_num [inpE]
  · rw [rows_get, rows_get]
    simp [mkRow, targetIncome, inpE]

/-- Claim C9 (amended): for inputs with inflation > 0 and a positive
base_income_need, Target_Income is strictly increasing across consecutive
rows. -/
theorem C9_target_strict_mono (p : ProjectionInput) (hinf : 0 < p.inflation)
    (hbase : 0 < p.base_income_need) (i : ℕ)
    (h : i + 1 < (compute_projection p).rows.length) :
    ((compute_projection p).rows.get ⟨i, Nat.lt_of_succ_lt h⟩).Target_Income <
    ((compute_projection p).rows.get ⟨i + 1, h⟩).Target_Income := by
  rw [rows_get, rows_get]
  show targetIncome p i < targetIncome p (i + 1)
  unfold targetIncome
  have h1 : (1:ℚ) < 1 + p.inflation := by linarith
  refine mul_lt_mul_of_pos_left (zpow_lt_zpow_right₀ h1 ?_) hbase
  push_cast
  omega

/-- Witness for C9_target_strict_mono at a concrete input, rows 0 and 1. -/
theorem C9_target_strict_mono_witness :
    0 < inpA.inflation ∧ 0 < inpA.base_income_need ∧
    0 + 1 < (compute_projection inpA).rows.length ∧
    ((compute_projection inpA).rows.get ⟨0, by decide⟩).Target_Income <
    ((compute_projection inpA).rows.get ⟨0 + 1, by decide⟩).Target_Income := by
  refine ⟨by norm_num [inpA], by norm_num [inpA], by decide, ?_⟩
  exact C9_target_strict_mono inpA (by norm_num [inpA]) (by norm_num [inpA]) 0 (by decide)

/-- A stream never shrinks when the age advances by one, given a non-negative
start value and cola. -/
theorem streamValue_succ_le (v : ℚ) (A : ℤ) (c : ℚ) (a : ℤ)
    (hv : 0 ≤ v) (hc : 0 ≤ c) :
    streamValue v A c a ≤ streamValue v A c (a + 1) := by
  have hb : (1:ℚ) ≤ 1 + c := by linarith
  by_cases hA : A ≤ a
  · rw [streamValue_of_le v A c a hA, streamValue_of_le v A c (a + 1) (by omega)]
    exact mul_le_mul_of_nonneg_left (zpow_le_zpow_right₀ hb (by omega)) hv
  · rw [streamValue_of_lt v A c a (by omega)]
    by_cases hA1 : A ≤ a + 1
    · rw [streamValue_of_le v A c (a + 1) hA1]
      exact mul_nonneg hv (zpow_nonneg (by linarith) _)
    · rw [streamValue_of_lt v A c (a + 1) (by omega)]

/-- Claim C10 (confirmed): with non-negative cola and non-negative start
values, each fixed-income stream and their total are non-decreasing from each
row to the next. -/
theorem C10_fixed_income_mono (p : ProjectionInput)
    (hcola : 0 ≤ p.cola) (h1 : 0 ≤ p.p1_start_value) (h2 : 0 ≤ p.p2_start_value)
    (hss : 0 ≤ p.ss_start_value) (i : ℕ)
    (h : i + 1 < (compute_projection p).rows.length) :
    ((compute_projection p).rows.get ⟨i, Nat.lt_of_succ_lt h⟩).Pension_1 ≤
      ((compute_projection p).rows.get ⟨i + 1, h⟩).Pension_1 ∧
    ((compute_projection p).rows.get ⟨i, Nat.lt_of_succ_lt h⟩).Pension_2 ≤
      ((compute_projection p).rows.get ⟨i + 1, h⟩).Pension_2 ∧
    ((compute_projection p).rows.get ⟨i, Nat.lt_of_succ_lt h⟩).Social_Security ≤
      ((compute_projection p).rows.get ⟨i + 1, h⟩).Social_Security ∧
    ((compute_projection p).rows.get ⟨i, Nat.lt_of_succ_lt h⟩).Total_Fixed_Income ≤
      ((compute_projection p).rows.get ⟨i + 1, h⟩).Total_Fixed_Income := by
  rw [rows_get, rows_get]
  have hp1 : pension1 p i ≤ pension1 p (i + 1) := by
    unfold pension1
    rw [rowAge_succ]
    exact streamValue_succ_le _ _ _ _ h1 hcola
  have hp2 : pension2 p i ≤ pension2 p (i + 1) := by
    unfold pension2
    rw [rowAge_succ]
    exact streamValue_succ_le _ _ _ _ h2 hcola
  have hp3 : socialSecurity p i ≤ socialSecurity p (i + 1) := by
    unfold socialSecurity
    rw [rowAge_succ]
    exact streamValue_succ_le _ _ _ _ hss hcola
  have ht : totalFixedIncome p i ≤ totalFixedIncome p (i + 1) := by
    unfold totalFixedIncome
    linarith
  exact ⟨hp1, hp2, hp3, ht⟩

/-- Witness for C10_fixed_income_mono at a concrete input, rows 0 and 1. -/
theorem C10_fixed_income_mono_witness :
    0 ≤ inpA.cola ∧ 0 ≤ inpA.p1_start_value ∧ 0 ≤ inpA.p2_start_value ∧
    0 ≤ inpA.ss_start_value ∧ 0 + 1 < (compute_projection inpA).rows.length ∧
    (((compute_projection inpA).rows.get ⟨0, by decide⟩).Pension_1 ≤
      ((compute_projection inpA).rows.get ⟨0 + 1, by decide⟩).Pension_1 ∧
    ((compute_projection inpA).rows.get ⟨0, by decide⟩).Pension_2 ≤
      ((compute_projection inpA).rows.get ⟨0 + 1, by decide⟩).Pension_2 ∧
    ((compute_projection inpA).rows.get ⟨0, by decide⟩).Social_Security ≤
      ((compute_projection inpA).rows.get ⟨0 + 1, by decide⟩).Social_Security ∧
    ((compute_projection inpA).rows.get ⟨0, by decide⟩).Total_Fixed_Income ≤
      ((compute_projection inpA).rows.get ⟨0 + 1, by decide⟩).Total_Fixed_Income) := by
  refine ⟨by norm_num [inpA], by norm_num [inpA], by norm_num [inpA],
    by norm_num [inpA], by decide, ?_⟩
  exact C10_fixed_income_mono inpA (by norm_num [inpA]) (by norm_num [inpA])
    (by norm_num [inpA]) (by norm_num [inpA]) 0 (by decide)

end Retirement
